import Mathlib

/-!
Shallow embedding of the token authorization engine of the
`rust-microservice` repository: role normalization and role extraction
(`src/microservice/src/security.rs`), the role-policy parser and evaluator
(`get_authorize_role_method`, `validate_jwt_roles`, `has_any_role`,
`has_all_role`), the JWT validation pipeline (`validate_jwt_with_roles`),
and the OAuth2 discovery resolver
(`Server::discover_oauth_security_settings` in
`src/microservice/src/server.rs`), together with theorems settling the
frozen claims about them.
-/

namespace Microservice

/-- Character-level uppercase, embedding Rust `str::to_uppercase`. The
roles and policy strings handled by the engine are ASCII, where
`to_uppercase` is exactly a character-by-character map. -/
def upper_str (s : String) : String :=
  String.mk (s.data.map Char.toUpper)

/-- Character-level replacement, embedding Rust `str::replace` with a
single-character pattern such as `replace("-", "_")`: every occurrence of
the one-character pattern is replaced, which is a character map. -/
def replace_char (a b : Char) (s : String) : String :=
  String.mk (s.data.map (fun c => if c = a then b else c))

/-- Embeds the role-normalization closure inside `Claims::get_roles`
(security.rs lines 126-131):
`format!("ROLE_{}", role.to_uppercase().replace("-", "_").replace(" ", "_"))`.
Note the `ROLE_` prefix is prepended unconditionally. -/
def normalize_role (role : String) : String :=
  "ROLE_" ++ replace_char ' ' '_' (replace_char '-' '_' (upper_str role))

/-- Embeds `struct Realm` (security.rs lines 137-141). -/
structure Realm where
  roles : List String
deriving DecidableEq

/-- Embeds `struct Claims` (security.rs lines 82-108). Timestamps
(`usize` seconds) are `Nat`. The `resource_access`
`HashMap<String, Realm>` is modelled as an association list; its
iteration order is irrelevant because the extracted roles are collected
into a set. -/
structure Claims where
  aud : Option String := none
  exp : Option Nat := none
  iat : Option Nat := none
  iss : Option String := none
  nbf : Option Nat := none
  sub : Option String := none
  scope : Option String := none
  resource_access : Option (List (String × Realm)) := none
deriving DecidableEq

/-- Embeds `Claims::get_roles` (security.rs lines 120-134): if
`resource_access` is present, flatten the `roles` list of every resource
entry, normalize each role, and collect them into a set; otherwise
`None`. The `HashSet<String>` is modelled as its list of elements with
duplicates collapsed (`List.dedup`); the hash set's iteration order is
unspecified, the list order is merely a canonical representative. -/
def Claims.get_roles (c : Claims) : Option (List String) :=
  c.resource_access.map (fun ra =>
    ((ra.map (fun p => p.2.roles)).flatten.map normalize_role).dedup)

/-- Embeds `enum OAuth2Error` (security.rs lines 58-80). Each variant
carries its message payload. -/
inductive OAuth2Error where
  | Configuration (msg : String)
  | InvalidJwt (msg : String)
  | InvalidPublicKey (msg : String)
  | JWTDecode (msg : String)
  | Unauthorized (msg : String)
  | RoleAuthorizationParse (msg : String)
  | InvalidRoles (msg : String)
deriving DecidableEq

deriving instance DecidableEq for Except

/-- The normalization as the spec words it (spec section 4.3 step 5):
uppercase, replace `-` and ` ` with `_`, and prepend `ROLE_` only if not
already present. Stated only for comparison with `normalize_role`, the
normalization the code actually performs. -/
def normalize_role_spec (role : String) : String :=
  let base := replace_char ' ' '_' (replace_char '-' '_' (upper_str role))
  if "ROLE_".data.isPrefixOf base.data then base else "ROLE_" ++ base

/-- Character-level lowercase, embedding Rust `str::to_lowercase` (ASCII). -/
def lower_str (s : String) : String :=
  String.mk (s.data.map Char.toLower)

/-- Character class `\w` of the policy regex (word character; the policy
strings are ASCII, where `\w` is alphanumeric or underscore). -/
def is_word_char (c : Char) : Bool :=
  c.isAlphanum || c = '_'

/-- Consumes the regex `\s*`: drops leading whitespace characters. -/
def drop_spaces : List Char → List Char
  | [] => []
  | c :: cs => if c.isWhitespace then drop_spaces cs else c :: cs

/-- Consumes a greedy `\w+`/`\w*`: the longest prefix of word characters,
returned together with the remaining input. -/
def take_word : List Char → List Char × List Char
  | [] => ([], [])
  | c :: cs =>
    if is_word_char c then
      let p := take_word cs
      (c :: p.1, p.2)
    else ([], c :: cs)

/-- A maximal word-character run matches the regex role atom `ROLE_\w+`
under the `(?i)` flag iff it is longer than five characters and its
first five characters uppercase to `ROLE_`. -/
def is_role_token (w : List Char) : Bool :=
  decide (5 < w.length) &&
    decide ((w.take 5).map Char.toUpper = ['R', 'O', 'L', 'E', '_'])

/-- Parses one role atom `ROLE_\w+` at the head of the input: the greedy
word run must be a role token. Returns the token and the rest. -/
def parse_role (s : List Char) : Option (List Char × List Char) :=
  let p := take_word s
  if is_role_token p.1 then some p else none

/-- Consumes the regex tail `(?:\s*,\s*ROLE_\w+)*` that follows the first
role of a role list: as long as the input (after spaces) continues with
a comma, another role must follow, else the repetition stops. Returns
the input position right after the last role, or `none` when a comma is
not followed by a role (the anchored regex cannot match then, since the
leftover comma can never match `\s*\)`). The fuel argument only bounds
the recursion: every iteration consumes the comma and a role of at
least six characters, so the caller's initial fuel of `length + 1`
never runs out. -/
def role_list_rest_fuel : Nat → List Char → Option (List Char)
  | 0, _ => none
  | fuel + 1, s =>
    match drop_spaces s with
    | ',' :: u =>
      match parse_role (drop_spaces u) with
      | some p => role_list_rest_fuel fuel p.2
      | none => none
    | _ => some s

/-- The regex tail `(?:\s*,\s*ROLE_\w+)*` with its fuel instantiated. -/
def role_list_rest (s : List Char) : Option (List Char) :=
  role_list_rest_fuel (s.length + 1) s

/-- Embeds the anchored regex of `get_authorize_role_method`
(security.rs lines 396-399):
`(?i)^\s*(?:(\w+)\s*\(\s*(ROLE_\w+(?:\s*,\s*ROLE_\w+)*)\s*\)|(ROLE_\w+))\s*$`
as a deterministic parser: the two alternatives are distinguished by the
presence of a parenthesis (a `\w` run can contain none), so the
leftmost-first alternation is deterministic, and every greedy class is
followed by a disjoint class, so greedy matching is forced. Returns the
optional method capture (group 1) and the role-list capture (group 2 or
group 3), both as slices of the input in their original casing. -/
def regex_captures (s : List Char) : Option (Option (List Char) × List Char) :=
  let t := drop_spaces s
  let p := take_word t
  if p.1 = [] then none
  else
    match drop_spaces p.2 with
    | '(' :: u =>
      let t3 := drop_spaces u
      match parse_role t3 with
      | none => none
      | some q =>
        match role_list_rest q.2 with
        | none => none
        | some rest =>
          let capture := t3.take (t3.length - rest.length)
          match drop_spaces rest with
          | ')' :: v =>
            if drop_spaces v = [] then some (some p.1, capture) else none
          | _ => none
    | r2 => if is_role_token p.1 && decide (r2 = []) then some (none, p.1) else none

/-- Embeds Rust `split(',')`: splits the text at every comma. -/
def split_comma : List Char → List (List Char)
  | [] => [[]]
  | c :: cs =>
    if c = ',' then [] :: split_comma cs
    else
      match split_comma cs with
      | h :: t => (c :: h) :: t
      | [] => [[c]]

/-- Embeds Rust `str::trim`: removes leading and trailing whitespace. -/
def trim_chars (s : List Char) : List Char :=
  (drop_spaces (drop_spaces s).reverse).reverse

/-- Embeds `get_authorize_role_method` (security.rs lines 395-439): run
the regex; on no match fail with `RoleAuthorizationParse`; otherwise the
method is capture group 1 lowercased (empty when the group is absent),
and the roles are the role-list capture split on commas, each trimmed
and uppercased. The two emptiness checks of the source are kept even
though a successful regex match makes them unreachable. -/
def get_authorize_role_method (authorize : String) :
    Except OAuth2Error (String × List String) :=
  match regex_captures authorize.data with
  | none => .error (.RoleAuthorizationParse "Invalid role authorization format.")
  | some caps =>
    let method := match caps.1 with
      | some w => lower_str (String.mk w)
      | none => ""
    let roles := (split_comma caps.2).map (fun r => upper_str (String.mk (trim_chars r)))
    if method = "" ∧ roles = [] then
      .error (.RoleAuthorizationParse "Authorization method and role not found.")
    else if ¬ method = "" ∧ roles = [] then
      .error (.RoleAuthorizationParse "Authorization method without roles.")
    else .ok (method, roles)

/-- Terminal styling from the `colored` crate (`bright_blue`) only wraps
the text in ANSI escapes for display; modelled as the identity. -/
def bright_blue (s : String) : String := s

/-- Terminal styling from the `colored` crate (`bright_green`); modelled
as the identity, like `bright_blue`. -/
def bright_green (s : String) : String := s

/-- Renders a role set the way the deny messages do
(`token_roles.iter().map(|r| r.to_string()).collect::<Vec<_>>().join(", ")`);
`HashSet` iteration order is unspecified, so the set is rendered in the
canonical order of its list model. -/
def render_roles (token_roles : List String) : String :=
  String.intercalate ", " token_roles

/-- Embeds `has_all_role` (security.rs lines 323-344): an absent role set
is `InvalidRoles`; otherwise the first required role (in declaration
order) missing from the token's role set produces the `InvalidRoles`
deny message naming it and reporting the token's roles; when none is
missing the check succeeds. -/
def has_all_role (claims : Claims) (roles : List String) : Except OAuth2Error Unit :=
  match claims.get_roles with
  | none => .error (.InvalidRoles "User doesn't have any roles.")
  | some token_roles =>
    match roles.find? (fun role => decide (role ∉ token_roles)) with
    | some role => .error (.InvalidRoles
        ("No required role was found for the current user. Required roles: " ++
          bright_blue role ++ ". Current roles: " ++
          bright_green (render_roles token_roles)))
    | none => .ok ()

/-- Embeds `has_any_role` (security.rs lines 358-379): an absent role set
is `InvalidRoles`; otherwise the check succeeds as soon as some required
role is in the token's role set, and denies with the `InvalidRoles`
message reporting all required roles and the token's roles. -/
def has_any_role (claims : Claims) (roles : List String) : Except OAuth2Error Unit :=
  match claims.get_roles with
  | none => .error (.InvalidRoles "User doesn't have any roles.")
  | some token_roles =>
    if roles.any (fun role => decide (role ∈ token_roles)) then .ok ()
    else .error (.InvalidRoles
      ("No required role was found for the current user. Required roles: " ++
        bright_blue (String.intercalate ", " roles) ++ ". Current roles: " ++
        bright_green (render_roles token_roles)))

/-- Embeds `validate_jwt_roles` (security.rs lines 289-309): parse the
authorization string and dispatch on the method keyword; a non-empty
method other than `hasanyrole`/`hasallroles` is rejected with
`InvalidRoles`, an empty method means a bare role validated through
`has_any_role`. -/
def validate_jwt_roles (claims : Claims) (authorize : String) :
    Except OAuth2Error Unit :=
  match get_authorize_role_method authorize with
  | .error e => .error e
  | .ok mr =>
    if mr.1 = "hasanyrole" then has_any_role claims mr.2
    else if mr.1 = "hasallroles" then has_all_role claims mr.2
    else if ¬ mr.1 = "" then
      .error (.InvalidRoles ("Invalid role authorization method: " ++ bright_blue mr.1))
    else has_any_role claims mr.2

/-- Embeds `jsonwebtoken::jwk::Jwk` as the engine uses it: an optional
key id plus key material, the latter abstracted to whether
`DecodingKey::try_from` accepts it (the key-material parsing itself is
library code outside this repository). -/
structure Jwk where
  kid : Option String := none
  decodable : Bool := true
deriving DecidableEq

/-- Embeds `jsonwebtoken::jwk::JwkSet`: the list of keys. -/
structure JwkSet where
  keys : List Jwk
deriving DecidableEq

/-- Embeds `JwkSet::find`: the first key whose key id matches. -/
def JwkSet.find (s : JwkSet) (kid : String) : Option Jwk :=
  s.keys.find? (fun k => decide (k.kid = some kid))

/-- Embeds `struct OAuth2Client` (settings.rs). -/
structure OAuth2Client where
  id : Option String := none
  secret : Option String := none
  scope : Option String := none
deriving DecidableEq

/-- Embeds `struct OAuth2Configuration` (settings.rs): every field the
source declares, with the same optionality. -/
structure OAuth2Configuration where
  enabled : Option Bool := none
  discovery_enabled : Option Bool := none
  discovery_url : Option String := none
  issuer_uri : Option String := none
  jwks_uri : Option String := none
  token_uri : Option String := none
  authorization_uri : Option String := none
  introspection_uri : Option String := none
  user_info_uri : Option String := none
  end_session_uri : Option String := none
  client : Option OAuth2Client := none
  jwks : Option JwkSet := none
deriving DecidableEq

/-- Embeds `struct Security` (settings.rs). -/
structure Security where
  oauth2 : Option OAuth2Configuration := none
deriving DecidableEq

/-- Embeds `struct Settings` (settings.rs). Only the `security` section
flows into the authorization engine; the `server`, `data` and `metrics`
sections never reach it and are omitted. -/
structure Settings where
  security : Option Security := none
deriving DecidableEq

/-- Embeds `Settings::get_oauth2_config` (settings.rs). -/
def Settings.get_oauth2_config (s : Settings) : Option OAuth2Configuration :=
  s.security.bind (fun sec => sec.oauth2)

/-- Embeds `Settings::get_auth2_public_key` (settings.rs): the JWK with
the given key id from the configured key set, if any. -/
def Settings.get_auth2_public_key (s : Settings) (kid : String) : Option Jwk := do
  let sec ← s.security
  let oauth2 ← sec.oauth2
  let jwks ← oauth2.jwks
  jwks.find kid

/-- Embeds `enum ServerError` (server.rs lines 736-755). -/
inductive ServerError where
  | InvalidState (msg : String)
  | Configuration (msg : String)
  | RuntimeNotFound (msg : String)
  | Database (msg : String)
  | NotInitialized
  | AlreadyInitialized
deriving DecidableEq

/-- Outcome of one outbound fetch-and-deserialize step
(`client.get(url).send().await` followed by `.json::<T>().await`): the
send can fail, the JSON decode can fail, or a value is produced. The
network is outside the program, so each outcome is an argument of the
resolver. -/
inductive Fetched (α : Type) where
  | sendError (msg : String)
  | jsonError (msg : String)
  | body (value : α)
deriving DecidableEq

/-- True when the fetch did not produce a value. -/
def Fetched.failed : Fetched α → Bool
  | .body _ => false
  | _ => true

/-- Embeds `Server::discover_oauth_security_settings` (server.rs lines
351-425). `discovery_fetch` is the outcome of the GET on the discovery
URL deserialized as `OAuth2Configuration`; `jwks_fetch` is the outcome
of the GET on the discovered `jwks_uri` deserialized as `JwkSet`
(consulted only when that URI is present). Fetch and parse failures map
to `ServerError::Configuration`. -/
def Server.discover_oauth_security_settings (settings : Settings)
    (discovery_fetch : Fetched OAuth2Configuration)
    (jwks_fetch : Fetched JwkSet) : Except ServerError Settings :=
  match settings.security.bind (fun s => s.oauth2) with
  | none => .error (.Configuration "Oauth2 security settings not found.")
  | some oauth2 =>
    match oauth2.discovery_enabled.getD false, oauth2.discovery_url with
    | true, some discovery_url =>
      match discovery_fetch with
      | .sendError e => .error (.Configuration e)
      | .jsonError e => .error (.Configuration e)
      | .body doc =>
        let discovery := { doc with
          enabled := oauth2.enabled
          discovery_url := some discovery_url
          discovery_enabled := some true }
        match discovery.jwks_uri with
        | some _ =>
          match jwks_fetch with
          | .sendError e => .error (.Configuration e)
          | .jsonError e => .error (.Configuration e)
          | .body jwks =>
            .ok { settings with
              security := some { oauth2 := some { discovery with jwks := some jwks } } }
        | none =>
          .ok { settings with security := some { oauth2 := some discovery } }
    | _, _ => .ok settings

/-- Embeds the fallback of `Server::new_with_settings` (server.rs lines
283-291) and `Server::init` (lines 319-326): when discovery fails the
failure is logged and the original static settings are kept. -/
def Server.resolve_security_settings (settings : Settings)
    (discovery_fetch : Fetched OAuth2Configuration)
    (jwks_fetch : Fetched JwkSet) : Settings :=
  match Server.discover_oauth_security_settings settings discovery_fetch jwks_fetch with
  | .ok s => s
  | .error _ => settings

/-- Modelled from the spec: a bearer token abstracted as its decoded
parts. The source hands the raw token string to the external
`jsonwebtoken` crate; the cryptography is beyond this repository, so a
token is modelled by its payload claims plus a flag saying whether its
signature verifies under the key selected for it (spec section 4.3
steps 3-4). -/
structure JwtToken where
  claims : Claims
  signature_valid : Bool := true
deriving DecidableEq

/-- Modelled from the spec: `jsonwebtoken::decode` with
`validation.validate_exp = true` and the issuer pinned (spec section
4.3 steps 3-4): the signature must verify, `exp` must be present and in
the future relative to the verification time, and `iss` must equal the
configured issuer exactly. Each failure is an error message that
`validate_jwt_with_roles` wraps into `JWTDecode`. -/
def jwt_decode (token : JwtToken) (issuer : String) (now : Nat) :
    Except String Claims :=
  if token.signature_valid = false then .error "InvalidSignature"
  else
    match token.claims.exp with
    | none => .error "Missing required claim: exp"
    | some e =>
      if e ≤ now then .error "ExpiredSignature"
      else if token.claims.iss ≠ some issuer then .error "InvalidIssuer"
      else .ok token.claims

/-- Embeds `validate_jwt_with_roles` (security.rs lines 218-266): look
up the public key by `kid` (`InvalidPublicKey` when absent, or when the
key material is rejected by `DecodingKey::try_from`, abstracted by
`Jwk.decodable`); require the configured issuer (`Configuration`
otherwise); decode and validate the token (failures wrapped in
`JWTDecode`); then validate the roles. -/
def validate_jwt_with_roles (token : JwtToken) (kid : String)
    (authorize : String) (settings : Settings) (now : Nat) :
    Except OAuth2Error Unit :=
  match settings.get_auth2_public_key kid with
  | none => .error (.InvalidPublicKey "Public key not found for key id: {kid}.")
  | some public_key =>
    if public_key.decodable = false then
      .error (.InvalidPublicKey "invalid public key material")
    else
      match settings.get_oauth2_config with
      | none => .error (.Configuration "Security not configured..")
      | some cfg =>
        match cfg.issuer_uri with
        | none => .error (.Configuration "Issuer URI not configured.")
        | some issuer =>
          match jwt_decode token issuer now with
          | .error e => .error (.JWTDecode e)
          | .ok decoded_claims => validate_jwt_roles decoded_claims authorize

/-- Embeds Rust `str::trim_start_matches` at the character level: as
long as the (non-empty) pattern is a prefix of the text, remove it. The
fuel only bounds the recursion; every iteration removes at least one
character, so the initial fuel of `length + 1` never runs out. -/
def trim_start_fuel : Nat → List Char → List Char → List Char
  | 0, _, s => s
  | fuel + 1, p, s =>
    if p ≠ [] ∧ p.isPrefixOf s then trim_start_fuel fuel p (s.drop p.length)
    else s

/-- Embeds `token.trim_start_matches("Bearer ")` (server.rs line 718):
repeatedly strips the prefix from the front of the text. -/
def trim_start_matches (p s : String) : String :=
  String.mk (trim_start_fuel (s.data.length + 1) p.data s.data)

/-- Embeds the Authorization-header handling of
`GlobalServer::validate_jwt` (server.rs lines 706-718): a missing
header, or one whose bytes are not valid UTF-8 (`to_str().ok()` turns
both into `None`), is rejected with `InvalidJwt`; otherwise every
leading repetition of `"Bearer "` is stripped and the rest is the token
handed to `security::oauth2::validate_jwt`. -/
def bearer_token_from_header (header_value : Option String) :
    Except OAuth2Error String :=
  match header_value with
  | none => .error (.InvalidJwt "Invalid JWT Header in request.")
  | some v => .ok (trim_start_matches "Bearer " v)

/-- The static settings used by the discovery examples: discovery
enabled, an inline static key set, and client credentials. -/
def discovery_static_example : Settings :=
  { security := some { oauth2 := some {
      enabled := some true
      discovery_enabled := some true
      discovery_url := some "https://idp.example/.well-known/openid-configuration"
      issuer_uri := some "https://static.example"
      jwks := some ⟨[{ kid := some "static-key" }]⟩
      client := some { id := some "client-id", secret := some "client-secret" } } } }

/-- A discovery document that itself carries an inline `jwks` field and
no `jwks_uri`. -/
def discovery_doc_example : OAuth2Configuration :=
  { issuer_uri := some "https://idp.example"
    token_uri := some "https://idp.example/token"
    jwks := some ⟨[{ kid := some "doc-key" }]⟩ }

/-- The static settings used by the token-validation examples: an
issuer and one decodable key `k1`. -/
def token_settings_example : Settings :=
  { security := some { oauth2 := some {
      issuer_uri := some "https://issuer.example"
      jwks := some ⟨[{ kid := some "k1" }]⟩ } } }

theorem string_data_append (a b : String) : (a ++ b).data = a.data ++ b.data := rfl

theorem normalize_role_data (r : String) :
    (normalize_role r).data =
      "ROLE_".data ++ r.data.map (fun c =>
        let u := Char.toUpper c
        let d := if u = '-' then '_' else u
        if d = ' ' then '_' else d) := by
  show "ROLE_".data ++ ((r.data.map Char.toUpper).map
      (fun c => if c = '-' then '_' else c)).map
      (fun c => if c = ' ' then '_' else c) = _
  simp only [List.map_map]
  rfl

theorem normalize_role_length (r : String) :
    (normalize_role r).length = r.length + 5 := by
  have h5 : ("ROLE_".data).length = 5 := rfl
  show (normalize_role r).data.length = r.data.length + 5
  rw [normalize_role_data, List.length_append, List.length_map, h5]
  omega

/-- C1 counterexample: normalization is not idempotent on the code. The
raw role `"some-role"` normalizes to `"ROLE_SOME_ROLE"`, but normalizing
that again yields `"ROLE_ROLE_SOME_ROLE"`, not itself. -/
theorem C1_counterexample :
    normalize_role "some-role" = "ROLE_SOME_ROLE" ∧
    normalize_role (normalize_role "some-role") = "ROLE_ROLE_SOME_ROLE" ∧
    normalize_role (normalize_role "some-role") ≠ normalize_role "some-role" := by
  refine ⟨by decide, by decide, by decide⟩

/-- C1 (amended): role normalization is never idempotent. `normalize_role`
always prepends `ROLE_` (it adds exactly five characters), so normalizing
an already-normalized role never yields itself:
`normalize_role (normalize_role r) ≠ normalize_role r` for every `r`. -/
theorem C1_normalize_never_idempotent (r : String) :
    (normalize_role r).length = r.length + 5 ∧
    normalize_role (normalize_role r) ≠ normalize_role r := by
  refine ⟨normalize_role_length r, fun h => ?_⟩
  have hlen := congrArg String.length h
  rw [normalize_role_length (normalize_role r)] at hlen
  omega

/-- C2 counterexample: the code prepends `ROLE_` unconditionally, so a raw
role that already carries the prefix (here `"role_admin"`, whose
uppercased form is `"ROLE_ADMIN"`) normalizes to `"ROLE_ROLE_ADMIN"`,
not to the `"ROLE_ADMIN"` the spec's conditional-prefix wording
(`normalize_role_spec`) produces. -/
theorem C2_counterexample :
    normalize_role "role_admin" = "ROLE_ROLE_ADMIN" ∧
    normalize_role_spec "role_admin" = "ROLE_ADMIN" ∧
    normalize_role "role_admin" ≠ normalize_role_spec "role_admin" := by
  refine ⟨by decide, by decide, by decide⟩

/-- C2 (amended): the normalized role equals the input uppercased, with
every `-` and ` ` replaced by `_`, and with `ROLE_` prepended
unconditionally (even when the prefix is already present). The raw role
`"some-role"` normalizes to `"ROLE_SOME_ROLE"`, and extracting it from a
`resource_access` entry yields the set containing exactly that role. -/
theorem C2_normalize_unconditional (r : String) :
    (normalize_role r).data =
      "ROLE_".data ++ r.data.map (fun c =>
        let u := Char.toUpper c
        let d := if u = '-' then '_' else u
        if d = ' ' then '_' else d) ∧
    (∃ rest, normalize_role r = "ROLE_" ++ rest) ∧
    normalize_role "some-role" = "ROLE_SOME_ROLE" ∧
    Claims.get_roles { resource_access := some [("api", ⟨["some-role"]⟩)] } =
      some ["ROLE_SOME_ROLE"] := by
  refine ⟨normalize_role_data r, ⟨_, rfl⟩, by decide, by decide⟩

/-- C3 counterexample: `"unknownmethod(ROLE_ADMIN)"` is not a parse
error. It matches the regex (any `\w+` is accepted as the method
capture), so `get_authorize_role_method` succeeds, and the unknown
method is rejected only afterwards by `validate_jwt_roles`, with an
`InvalidRoles` error, not `RoleAuthorizationParse`. -/
theorem C3_counterexample :
    get_authorize_role_method "unknownmethod(ROLE_ADMIN)" =
      .ok ("unknownmethod", ["ROLE_ADMIN"]) ∧
    validate_jwt_roles {} "unknownmethod(ROLE_ADMIN)" =
      .error (.InvalidRoles "Invalid role authorization method: unknownmethod") := by
  refine ⟨by decide, by decide⟩

/-- C3 (amended): a policy expression `method(role_list)` whose method
keyword is neither `hasanyrole` nor `hasallroles` (case-insensitively)
parses successfully, and policy processing rejects it with an
`InvalidRoles` error naming the method — not with
`RoleAuthorizationParse`. -/
theorem C3_unknown_method_invalid_roles (claims : Claims)
    (authorize method : String) (roles : List String)
    (hp : get_authorize_role_method authorize = .ok (method, roles))
    (h1 : method ≠ "hasanyrole") (h2 : method ≠ "hasallroles") (h3 : method ≠ "") :
    validate_jwt_roles claims authorize =
      .error (.InvalidRoles ("Invalid role authorization method: " ++ method)) := by
  simp [validate_jwt_roles, hp, h1, h2, h3, bright_blue]

/-- C3 witness: the amended theorem applied to the concrete policy
`"unknownmethod(ROLE_ADMIN)"`. -/
theorem C3_unknown_method_invalid_roles_witness :
    validate_jwt_roles {} "unknownmethod(ROLE_ADMIN)" =
      .error (.InvalidRoles "Invalid role authorization method: unknownmethod") :=
  C3_unknown_method_invalid_roles {} "unknownmethod(ROLE_ADMIN)"
    "unknownmethod" ["ROLE_ADMIN"] (by decide) (by decide) (by decide) (by decide)

/-- C7 (confirmed): with the caller's role set extracted as `ts`, the
`AllOf` check `has_all_role` succeeds iff every required role is in
`ts`; and whenever the scan finds a first required role missing from
`ts` (in declaration order, which is what `List.find?` returns), the
check denies with the `InvalidRoles` reason naming that role and
reporting the caller's full role set. -/
theorem C7_has_all_roles_subset (claims : Claims) (roles : List String)
    (ts : List String) (h : claims.get_roles = some ts) :
    (has_all_role claims roles = .ok () ↔ ∀ r ∈ roles, r ∈ ts) ∧
    (∀ r0, roles.find? (fun role => decide (role ∉ ts)) = some r0 →
      has_all_role claims roles = .error (.InvalidRoles
        ("No required role was found for the current user. Required roles: " ++
          r0 ++ ". Current roles: " ++ render_roles ts))) := by
  constructor
  · simp only [has_all_role, h]
    cases hf : roles.find? (fun role => decide (role ∉ ts)) with
    | none =>
      simp only [List.find?_eq_none, decide_eq_true_eq] at hf
      simpa using fun r hr => not_not.mp (hf r hr)
    | some r0 =>
      have hr0 := List.find?_some hf
      simp only [decide_eq_true_eq] at hr0
      simp only [reduceCtorEq, false_iff, not_forall]
      exact ⟨r0, List.mem_of_find?_eq_some hf, hr0⟩
  · intro r0 hf
    simp only [decide_not] at hf
    simp [has_all_role, h, hf, bright_blue, bright_green]

/-- C7 witness: `hasAllRoles(ROLE_ADMIN, ROLE_AUDITOR)` against the role
set `{ROLE_ADMIN}` denies naming `ROLE_AUDITOR` and reporting the
caller's roles. -/
theorem C7_has_all_roles_subset_witness :
    has_all_role { resource_access := some [("account", ⟨["admin"]⟩)] }
        ["ROLE_ADMIN", "ROLE_AUDITOR"] =
      .error (.InvalidRoles
        ("No required role was found for the current user. Required roles: ROLE_AUDITOR. Current roles: ROLE_ADMIN")) := by
  have h := C7_has_all_roles_subset
    { resource_access := some [("account", ⟨["admin"]⟩)] }
    ["ROLE_ADMIN", "ROLE_AUDITOR"] ["ROLE_ADMIN"] (by decide)
  have h2 := h.2 "ROLE_AUDITOR" (by decide)
  rw [h2]
  decide

/-- C8 (confirmed): a caller whose token carries no `resource_access`
claim is denied: for any policy string that parses to one of the three
policy forms (`hasanyrole`, `hasallroles`, or a bare role with empty
method) the evaluation fails fast with `InvalidRoles` ("no roles"),
before any role-set comparison; and for every policy string whatsoever
the evaluation never returns `Ok`. -/
theorem C8_no_resource_access_denied (claims : Claims)
    (authorize method : String) (roles : List String)
    (hra : claims.resource_access = none)
    (hp : get_authorize_role_method authorize = .ok (method, roles))
    (hm : method = "hasanyrole" ∨ method = "hasallroles" ∨ method = "") :
    validate_jwt_roles claims authorize =
      .error (.InvalidRoles "User doesn't have any roles.") ∧
    ∀ a : String, validate_jwt_roles claims a ≠ .ok () := by
  have hroles : claims.get_roles = none := by
    simp [Claims.get_roles, hra]
  constructor
  · rcases hm with hm | hm | hm <;>
      simp [validate_jwt_roles, hp, hm, has_any_role, has_all_role, hroles]
  · intro a
    rw [validate_jwt_roles]
    cases get_authorize_role_method a with
    | error e => simp
    | ok mr =>
      simp only []
      split
      · simp [has_any_role, hroles]
      · split
        · simp [has_all_role, hroles]
        · split
          · simp
          · simp [has_any_role, hroles]

/-- C8 witness: the empty-claims caller evaluated against
`hasAnyRole(ROLE_ADMIN)` is denied with the "no roles" reason. -/
theorem C8_no_resource_access_denied_witness :
    validate_jwt_roles {} "hasAnyRole(ROLE_ADMIN)" =
      .error (.InvalidRoles "User doesn't have any roles.") :=
  (C8_no_resource_access_denied {} "hasAnyRole(ROLE_ADMIN)"
    "hasanyrole" ["ROLE_ADMIN"] rfl (by decide) (Or.inl rfl)).1

/-- C4 counterexample: with discovery disabled and no issuer configured,
the resolver still succeeds and returns the static settings unchanged —
it does not verify the issuer and raises no `Configuration` error. -/
theorem C4_counterexample :
    ({ security := some { oauth2 := some { discovery_enabled := some false } } } :
        Settings).get_oauth2_config.bind (fun o => o.issuer_uri) = none ∧
    Server.discover_oauth_security_settings
        { security := some { oauth2 := some { discovery_enabled := some false } } }
        (.sendError "unreachable") (.sendError "unreachable") =
      .ok { security := some { oauth2 := some { discovery_enabled := some false } } } := by
  refine ⟨by decide, by decide⟩

/-- C4 (amended): when discovery is disabled the resolver returns the
static configuration unchanged without verifying the issuer; the only
check it makes is that the OAuth2 section exists (`Configuration` error
when absent). The missing-issuer `Configuration` error is raised later,
by `validate_jwt_with_roles`, at token-validation time. -/
theorem C4_discovery_disabled_static (settings : Settings)
    (oauth2 : OAuth2Configuration)
    (df : Fetched OAuth2Configuration) (jf : Fetched JwkSet)
    (h : settings.get_oauth2_config = some oauth2)
    (hd : oauth2.discovery_enabled.getD false = false) :
    Server.discover_oauth_security_settings settings df jf = .ok settings ∧
    (∀ s2 : Settings, s2.get_oauth2_config = none →
      Server.discover_oauth_security_settings s2 df jf =
        .error (.Configuration "Oauth2 security settings not found.")) ∧
    (∀ token kid authorize now pk,
      settings.get_auth2_public_key kid = some pk → pk.decodable = true →
      oauth2.issuer_uri = none →
      validate_jwt_with_roles token kid authorize settings now =
        .error (.Configuration "Issuer URI not configured.")) := by
  have h' : settings.security.bind (fun s => s.oauth2) = some oauth2 := h
  refine ⟨?_, ?_, ?_⟩
  · cases hurl : oauth2.discovery_url <;>
      simp [Server.discover_oauth_security_settings, h', hd, hurl]
  · intro s2 h2
    have h2' : s2.security.bind (fun s => s.oauth2) = none := h2
    simp [Server.discover_oauth_security_settings, h2']
  · intro token kid authorize now pk hk hdec hiss
    simp [validate_jwt_with_roles, hk, hdec, h, hiss]

/-- C4 witness: the amended theorem at a concrete configuration with
discovery disabled and an issuer present. -/
theorem C4_discovery_disabled_static_witness :
    Server.discover_oauth_security_settings
        { security := some { oauth2 := some {
            discovery_enabled := some false
            issuer_uri := some "https://issuer.example" } } }
        (.sendError "e") (.jsonError "e") =
      .ok { security := some { oauth2 := some {
        discovery_enabled := some false
        issuer_uri := some "https://issuer.example" } } } :=
  (C4_discovery_disabled_static
    { security := some { oauth2 := some {
        discovery_enabled := some false
        issuer_uri := some "https://issuer.example" } } }
    { discovery_enabled := some false, issuer_uri := some "https://issuer.example" }
    (.sendError "e") (.jsonError "e") (by decide) (by decide)).1

/-- C5 (confirmed): if any discovery step fails — the discovery-document
send, its JSON decode, or (when the discovered document carries a
`jwks_uri`) the JWKS send or JSON decode — startup does not abort: the
resolver falls back and the engine proceeds with the original static
settings, unchanged. -/
theorem C5_discovery_failure_falls_back (settings : Settings)
    (df : Fetched OAuth2Configuration) (jf : Fetched JwkSet)
    (h : df.failed = true ∨
      (∃ doc, df = .body doc ∧ doc.jwks_uri.isSome = true ∧ jf.failed = true)) :
    Server.resolve_security_settings settings df jf = settings := by
  cases hsec : settings.security.bind (fun s => s.oauth2) with
  | none =>
    simp [Server.resolve_security_settings, Server.discover_oauth_security_settings, hsec]
  | some oauth2 =>
    cases hge : oauth2.discovery_enabled.getD false with
    | false =>
      cases hurl : oauth2.discovery_url <;>
        simp [Server.resolve_security_settings, Server.discover_oauth_security_settings,
          hsec, hge, hurl]
    | true =>
      cases hurl : oauth2.discovery_url with
      | none =>
        simp [Server.resolve_security_settings, Server.discover_oauth_security_settings,
          hsec, hge, hurl]
      | some u =>
        cases df with
        | sendError e =>
          simp [Server.resolve_security_settings, Server.discover_oauth_security_settings,
            hsec, hge, hurl]
        | jsonError e =>
          simp [Server.resolve_security_settings, Server.discover_oauth_security_settings,
            hsec, hge, hurl]
        | body doc =>
          rcases h with hfail | ⟨doc2, hdoc2, hju, hjf⟩
          · simp [Fetched.failed] at hfail
          · cases hdoc2
            cases hju2 : doc.jwks_uri with
            | none => rw [hju2] at hju; simp at hju
            | some jua =>
              cases jf with
              | sendError e2 =>
                simp [Server.resolve_security_settings,
                  Server.discover_oauth_security_settings, hsec, hge, hurl, hju2]
              | jsonError e2 =>
                simp [Server.resolve_security_settings,
                  Server.discover_oauth_security_settings, hsec, hge, hurl, hju2]
              | body ks => simp [Fetched.failed] at hjf

/-- C5 witness: a concrete configuration with discovery enabled whose
discovery fetch fails with a connection error keeps the static
settings. -/
theorem C5_discovery_failure_falls_back_witness :
    Server.resolve_security_settings
        { security := some { oauth2 := some {
            discovery_enabled := some true
            discovery_url := some "https://idp.example/.well-known/openid-configuration"
            issuer_uri := some "https://static.example" } } }
        (.sendError "connection refused") (.sendError "never fetched") =
      { security := some { oauth2 := some {
          discovery_enabled := some true
          discovery_url := some "https://idp.example/.well-known/openid-configuration"
          issuer_uri := some "https://static.example" } } } :=
  C5_discovery_failure_falls_back _ _ _ (Or.inl rfl)

/-- C9 counterexample: when the fetched discovery document carries no
`jwks_uri` but does carry an inline `jwks` field, resolution succeeds
and the resolved key set is the document's own — populated even though
the document supplies no `jwks_uri` and no second fetch happened (the
JWKS fetch outcome here is a failure, and it is never consulted). -/
theorem C9_counterexample :
    discovery_doc_example.jwks_uri = none ∧
    Server.discover_oauth_security_settings discovery_static_example
        (.body discovery_doc_example) (.sendError "jwks never fetched") =
      .ok { security := some { oauth2 := some {
        enabled := some true
        discovery_enabled := some true
        discovery_url := some "https://idp.example/.well-known/openid-configuration"
        issuer_uri := some "https://idp.example"
        token_uri := some "https://idp.example/token"
        jwks := some ⟨[{ kid := some "doc-key" }]⟩ } } } := by
  refine ⟨by decide, by decide⟩

/-- C9 (amended): when the discovery-document fetch succeeds, the
resolved OAuth2 configuration is the fetched document with only
`enabled`, `discovery_url` and `discovery_enabled` carried over from
the static configuration — every other static field, including an
inline static JWKS and the client credentials, is discarded. The key
set is overwritten with a fetched JWKS exactly when the document
supplies a `jwks_uri` (and then the second fetch must succeed for
resolution to succeed at all); when the document supplies no
`jwks_uri`, the resolved key set is whatever the document itself
carried. -/
theorem C9_discovery_frame (settings : Settings)
    (oauth2 doc : OAuth2Configuration) (url : String) (jf : Fetched JwkSet)
    (h : settings.get_oauth2_config = some oauth2)
    (hd : oauth2.discovery_enabled.getD false = true)
    (hu : oauth2.discovery_url = some url) :
    (doc.jwks_uri = none →
      Server.discover_oauth_security_settings settings (.body doc) jf =
        .ok { settings with security := some { oauth2 := some { doc with
          enabled := oauth2.enabled
          discovery_url := some url
          discovery_enabled := some true } } }) ∧
    (∀ ju ks, doc.jwks_uri = some ju → jf = .body ks →
      Server.discover_oauth_security_settings settings (.body doc) jf =
        .ok { settings with security := some { oauth2 := some { doc with
          enabled := oauth2.enabled
          discovery_url := some url
          discovery_enabled := some true
          jwks := some ks } } }) := by
  have h' : settings.security.bind (fun s => s.oauth2) = some oauth2 := h
  constructor
  · intro hnone
    simp [Server.discover_oauth_security_settings, h', hd, hu, hnone]
  · intro jua ks hju hjf
    cases hjf
    simp [Server.discover_oauth_security_settings, h', hd, hu, hju]

/-- C9 witness: the amended theorem at a concrete discovery document
that supplies a `jwks_uri`, with a successful JWKS fetch. -/
theorem C9_discovery_frame_witness :
    Server.discover_oauth_security_settings discovery_static_example
        (.body { issuer_uri := some "https://idp.example",
                 jwks_uri := some "https://idp.example/jwks" })
        (.body ⟨[{ kid := some "fetched-key" }]⟩) =
      .ok { security := some { oauth2 := some {
        enabled := some true
        discovery_enabled := some true
        discovery_url := some "https://idp.example/.well-known/openid-configuration"
        issuer_uri := some "https://idp.example"
        jwks_uri := some "https://idp.example/jwks"
        jwks := some ⟨[{ kid := some "fetched-key" }]⟩ } } } := by
  have h := (C9_discovery_frame discovery_static_example
    { enabled := some true
      discovery_enabled := some true
      discovery_url := some "https://idp.example/.well-known/openid-configuration"
      issuer_uri := some "https://static.example"
      jwks := some ⟨[{ kid := some "static-key" }]⟩
      client := some { id := some "client-id", secret := some "client-secret" } }
    { issuer_uri := some "https://idp.example",
      jwks_uri := some "https://idp.example/jwks" }
    "https://idp.example/.well-known/openid-configuration"
    (.body ⟨[{ kid := some "fetched-key" }]⟩)
    (by decide) (by decide) (by decide)).2
    "https://idp.example/jwks" ⟨[{ kid := some "fetched-key" }]⟩ rfl rfl
  rw [h]

/-- C6 (confirmed, with `jsonwebtoken::decode` modelled from the spec):
whenever the key lookup and configuration steps succeed, a token whose
`exp` claim is absent, and a token whose `exp` lies in the past
relative to the verification time, both fail with a `JWTDecode`
error. -/
theorem C6_missing_or_past_exp (token : JwtToken) (kid authorize : String)
    (settings : Settings) (now : Nat) (pk : Jwk)
    (cfg : OAuth2Configuration) (issuer : String)
    (hk : settings.get_auth2_public_key kid = some pk)
    (hdec : pk.decodable = true)
    (hc : settings.get_oauth2_config = some cfg)
    (hi : cfg.issuer_uri = some issuer)
    (he : token.claims.exp = none ∨ ∃ e, token.claims.exp = some e ∧ e < now) :
    ∃ msg, validate_jwt_with_roles token kid authorize settings now =
      .error (.JWTDecode msg) := by
  cases hsig : token.signature_valid with
  | false =>
    exact ⟨"InvalidSignature",
      by simp [validate_jwt_with_roles, hk, hdec, hc, hi, jwt_decode, hsig]⟩
  | true =>
    rcases he with hnone | ⟨e, hsome, hlt⟩
    · exact ⟨"Missing required claim: exp",
        by simp [validate_jwt_with_roles, hk, hdec, hc, hi, jwt_decode, hsig, hnone]⟩
    · exact ⟨"ExpiredSignature",
        by simp [validate_jwt_with_roles, hk, hdec, hc, hi, jwt_decode, hsig, hsome,
          Nat.le_of_lt hlt]⟩

/-- C6 witness: a well-signed token with `exp = 100` verified at time
`200` is rejected with `JWTDecode`. -/
theorem C6_missing_or_past_exp_witness :
    ∃ msg, validate_jwt_with_roles
        ⟨{ exp := some 100, iss := some "https://issuer.example" }, true⟩
        "k1" "ROLE_ADMIN" token_settings_example 200 =
      .error (.JWTDecode msg) :=
  C6_missing_or_past_exp
    ⟨{ exp := some 100, iss := some "https://issuer.example" }, true⟩
    "k1" "ROLE_ADMIN" token_settings_example 200
    { kid := some "k1" }
    { issuer_uri := some "https://issuer.example", jwks := some ⟨[{ kid := some "k1" }]⟩ }
    "https://issuer.example"
    (by decide) (by decide) (by decide) (by decide)
    (Or.inr ⟨100, rfl, by omega⟩)

theorem isPrefixOf_append_self (p t : List Char) : p.isPrefixOf (p ++ t) = true := by
  induction p with
  | nil => cases t <;> rfl
  | cons c cs ih => simp [List.isPrefixOf, ih]

theorem isPrefixOf_length_le (p : List Char) :
    ∀ s : List Char, p.isPrefixOf s = true → p.length ≤ s.length := by
  induction p with
  | nil => intro s h; simp
  | cons c cs ih =>
    intro s h
    cases s with
    | nil => simp [List.isPrefixOf] at h
    | cons d ds =>
      simp only [List.isPrefixOf, Bool.and_eq_true] at h
      have := ih ds h.2
      simp only [List.length_cons]
      omega

theorem trim_start_fuel_id (f : Nat) (p s : List Char)
    (h : p.isPrefixOf s = false) : trim_start_fuel f p s = s := by
  cases f with
  | zero => rfl
  | succ n => simp [trim_start_fuel, h]

theorem trim_start_fuel_step (f : Nat) (p s : List Char)
    (hp : p ≠ []) (hps : p.isPrefixOf s = true) :
    trim_start_fuel (f + 1) p s = trim_start_fuel f p (s.drop p.length) := by
  simp [trim_start_fuel, hp, hps]

theorem trim_start_fuel_stop (f : Nat) (p s : List Char)
    (h : ¬ (p ≠ [] ∧ p.isPrefixOf s = true)) : trim_start_fuel f p s = s := by
  cases f with
  | zero => rfl
  | succ n => simp only [trim_start_fuel, if_neg h]

theorem trim_start_fuel_congr (p : List Char) :
    ∀ f1 f2 : Nat, ∀ s : List Char, s.length < f1 → s.length < f2 →
      trim_start_fuel f1 p s = trim_start_fuel f2 p s := by
  intro f1
  induction f1 with
  | zero => intro f2 s h1 h2; omega
  | succ n ih =>
    intro f2 s h1 h2
    cases f2 with
    | zero => omega
    | succ m =>
      by_cases hc : p ≠ [] ∧ p.isPrefixOf s
      · have hple : p.length ≤ s.length := isPrefixOf_length_le p s hc.2
        have hppos : 0 < p.length := List.length_pos.mpr hc.1
        have hdrop : (s.drop p.length).length = s.length - p.length := by
          simp [List.length_drop]
        rw [trim_start_fuel_step n p s hc.1 hc.2,
          trim_start_fuel_step m p s hc.1 hc.2]
        exact ih m (s.drop p.length) (by omega) (by omega)
      · rw [trim_start_fuel_stop (n + 1) p s hc, trim_start_fuel_stop (m + 1) p s hc]

/-- C10 (confirmed): the Authorization-header handling of the inbound
`validate_jwt` entry point. A missing (or non-UTF-8) header is rejected
with `InvalidJwt` before any token parsing; a present header value is
passed on as the token after `trim_start_matches("Bearer ")`, which
strips every leading repetition of `"Bearer "` and leaves a value with
no such leading repetition unchanged; in particular
`"Bearer Bearer X"` yields `"X"`. -/
theorem C10_bearer_extraction :
    bearer_token_from_header none =
      .error (.InvalidJwt "Invalid JWT Header in request.") ∧
    (∀ v : String,
      bearer_token_from_header (some v) = .ok (trim_start_matches "Bearer " v)) ∧
    (∀ v : String, "Bearer ".data.isPrefixOf v.data = false →
      trim_start_matches "Bearer " v = v) ∧
    (∀ v : String,
      trim_start_matches "Bearer " ("Bearer " ++ v) = trim_start_matches "Bearer " v) ∧
    trim_start_matches "Bearer " "Bearer Bearer X" = "X" := by
  refine ⟨rfl, fun v => rfl, ?_, ?_, by decide⟩
  · intro v hnp
    rw [trim_start_matches, trim_start_fuel_id _ _ _ hnp]
  · intro v
    rw [trim_start_matches, trim_start_matches]
    have h1 : ("Bearer " ++ v).data = "Bearer ".data ++ v.data := rfl
    rw [h1, trim_start_fuel_step _ _ _ (by decide)
      (isPrefixOf_append_self "Bearer ".data v.data)]
    have h2 : ("Bearer ".data ++ v.data).drop "Bearer ".data.length = v.data :=
      List.drop_left _ _
    rw [h2]
    congr 1
    have h7 : ("Bearer ".data).length = 7 := rfl
    have h3 : ("Bearer ".data ++ v.data).length = 7 + v.data.length := by
      rw [List.length_append, h7]
    apply trim_start_fuel_congr
    · omega
    · omega

/-- C10 witness: a header value that does not start with the Bearer
scheme is passed through unchanged. -/
theorem C10_bearer_extraction_witness :
    trim_start_matches "Bearer " "raw.jwt.token" = "raw.jwt.token" :=
  C10_bearer_extraction.2.2.1 "raw.jwt.token" (by decide)

end Microservice
